import Mathlib

/-!
ZikTok: the expiring cache, the duration parser and the two request handlers.

A shallow embedding of `server.go`.

* Clock readings are integers (nanoseconds of the monotonic clock); every place
  where the program reads the clock (`time.Now`, `time.Since`) receives the
  reading as an explicit argument.
* The Go map inside `Cache` is a finite map, embedded as a lookup function.
* Outbound HTTP calls are answered by an explicit `Upstream` environment, and a
  handler returns, next to its response, the cache it leaves behind and the list
  of URLs it fetched.
* Requests are served one after the other: a handler run is one step from the
  cache before it to the cache after it.
* Go `int` is the 64-bit signed integer of the build target; arithmetic on it is
  embedded on `Int` with an explicit wrap to the signed 64-bit range.
* Logging is left out.
-/

namespace ZikTok

/-! ## Cache -/

/-- Go `CacheItem`: the payload and the clock reading taken when it was stored. -/
structure CacheItem (α : Type) where
  Data : α
  Timestamp : Int
deriving DecidableEq, Repr

/-- Go `Cache`: the field `items map[string]CacheItem`, as a lookup function
(`none` for a key that is not in the map). The lock is not part of the state. -/
structure Cache (α : Type) where
  items : String → Option (CacheItem α)

/-- Go `NewCache`: the empty map. -/
def NewCache {α : Type} : Cache α := ⟨fun _ => none⟩

/-- Largest `time.Duration` (an `int64` count of nanoseconds). -/
def maxDuration : Int := 2 ^ 63 - 1

/-- Smallest `time.Duration`. -/
def minDuration : Int := -(2 ^ 63)

/-- Go `time.Hour`, in nanoseconds. -/
def Hour : Int := 3600 * 1000000000

/-- Go `time.Since(ts)` evaluated when the clock reads `now`: the difference of
the two readings, saturated to the range of `time.Duration`. -/
def timeSince (now ts : Int) : Int :=
  if now - ts > maxDuration then maxDuration
  else if now - ts < minDuration then minDuration
  else now - ts

/-- Go `(*Cache).Get`, run when the clock reads `now`. The first component is the
returned pair (`some v` for `(v, true)`, `none` for `(nil, false)`), the second
one is the cache after the call. -/
def Cache.Get {α : Type} (c : Cache α) (key : String) (now : Int) : Option α × Cache α :=
  match c.items key with
  | none => (none, c)
  | some item =>
    if timeSince now item.Timestamp > Hour then (none, c)
    else (some item.Data, c)

/-- Go `(*Cache).Set`, run when the clock reads `now`: `c.items[key] = CacheItem{data, now}`. -/
def Cache.Set {α : Type} (c : Cache α) (key : String) (data : α) (now : Int) : Cache α :=
  ⟨fun k => if k = key then some ⟨data, now⟩ else c.items k⟩

/-- A run of `Set` calls, oldest first: each triple is (key, value, clock reading). -/
def Cache.SetAll {α : Type} (c : Cache α) : List (String × α × Int) → Cache α
  | [] => c
  | (k, v, t) :: rest => Cache.SetAll (c.Set k v t) rest

/-! ## Duration parsing -/

/-- Error kinds of `strconv` (`ErrSyntax`, `ErrRange`). -/
inductive NumError where
  | errSyntax
  | errRange
deriving DecidableEq, Repr

/-- Largest `uint64`. -/
def maxUint64 : Nat := 2 ^ 64 - 1

/-- Largest `int64`, which is the largest Go `int` on the 64-bit build target. -/
def maxInt64 : Int := 2 ^ 63 - 1

/-- Numeric value of a decimal digit character (`c - '0'`). -/
def digitVal (c : Char) : Nat := c.toNat - 48

/-- The digit loop of `strconv.ParseUint(s, 10, 64)`, entered with accumulator `n`.
A byte that is not a decimal digit ends it with `(0, ErrSyntax)`; an accumulator
at or above the cutoff `maxUint64/10 + 1`, or a sum above `maxUint64`, ends it
with `(maxUint64, ErrRange)`. -/
def parseUintLoop (n : Nat) : List Char → Nat × Option NumError
  | [] => (n, none)
  | c :: cs =>
    if !c.isDigit then (0, some NumError.errSyntax)
    else if n ≥ maxUint64 / 10 + 1 then (maxUint64, some NumError.errRange)
    else if n * 10 + digitVal c > maxUint64 then (maxUint64, some NumError.errRange)
    else parseUintLoop (n * 10 + digitVal c) cs

/-- Go `strconv.ParseUint(s, 10, 64)`. -/
def ParseUint (s : List Char) : Nat × Option NumError :=
  match s with
  | [] => (0, some NumError.errSyntax)
  | _ => parseUintLoop 0 s

/-- Go `strconv.ParseInt(s, 10, 0)` with 64-bit `int`: optional sign, then
`ParseUint`; a magnitude outside the signed range is replaced by the nearest
bound (`ErrRange`), a syntax error gives `0`. -/
def ParseInt (s : List Char) : Int × Option NumError :=
  match s with
  | [] => (0, some NumError.errSyntax)
  | c :: cs =>
    let neg := c == '-'
    let body := if c == '+' ∨ c == '-' then cs else c :: cs
    match ParseUint body with
    | (_, some NumError.errSyntax) => (0, some NumError.errSyntax)
    | (un, _) =>
      if !neg ∧ un ≥ 2 ^ 63 then (2 ^ 63 - 1, some NumError.errRange)
      else if neg ∧ un > 2 ^ 63 then (-(2 ^ 63), some NumError.errRange)
      else (if neg then -(un : Int) else (un : Int), none)

/-- Go `strconv.Atoi`. Its fast path for inputs shorter than 19 bytes computes the
same value as `ParseInt(s, 10, 0)`, to which longer inputs are handed. -/
def Atoi (s : String) : Int × Option NumError := ParseInt s.toList

/-- Go `parseIntOrZero`: `0` for the empty string, otherwise the value returned by
`strconv.Atoi`, whose error is discarded. -/
def parseIntOrZero (s : String) : Int :=
  if s = "" then 0 else (Atoi s).1

/-- One optional group `(?:(\d+)L)?` of the duration pattern, matched at the start
of `cs`: the greedy digit run must be non-empty and followed by the letter `L`.
Returns the text captured by `(\d+)` (empty when the group does not take part)
and the input left after the group. -/
def matchComponent (L : Char) (cs : List Char) : List Char × List Char :=
  match cs.takeWhile Char.isDigit, cs.dropWhile Char.isDigit with
  | d :: ds, c :: rest => if c = L then (d :: ds, rest) else ([], cs)
  | _, _ => ([], cs)

/-- Leftmost occurrence of the literal `PT`: the input that follows it. -/
def findPT : List Char → Option (List Char)
  | [] => none
  | c :: cs =>
    match c, cs with
    | 'P', 'T' :: rest => some rest
    | _, _ => findPT cs

/-- Go `FindStringSubmatch` for the pattern `PT(?:(\d+)H)?(?:(\d+)M)?(?:(\d+)S)?`:
`none` when the pattern matches nowhere, otherwise the three captured groups
`matches[1]`, `matches[2]`, `matches[3]` of the leftmost match (the pattern is not
anchored; every group after `PT` is optional and greedy). -/
def FindStringSubmatch (duration : String) : Option (String × String × String) :=
  match findPT duration.toList with
  | none => none
  | some r0 =>
    let (h, r1) := matchComponent 'H' r0
    let (m, r2) := matchComponent 'M' r1
    let (s, _) := matchComponent 'S' r2
    some (String.mk h, String.mk m, String.mk s)

/-- Value of a Go `int` expression: wrap to the signed 64-bit range. -/
def wrapInt64 (x : Int) : Int := (x + 2 ^ 63) % 2 ^ 64 - 2 ^ 63

/-- Go `parseDuration`. -/
def parseDuration (duration : String) : Int :=
  match FindStringSubmatch duration with
  | none => 0
  | some (h, m, s) =>
    let hours := parseIntOrZero h
    let minutes := parseIntOrZero m
    let seconds := parseIntOrZero s
    wrapInt64 (wrapInt64 (wrapInt64 (hours * 3600) + wrapInt64 (minutes * 60)) + seconds)

/-! ### The duration format as the specification words it -/

/-- A non-empty string of decimal digits. -/
def IsDigits (ds : List Char) : Prop := ds ≠ [] ∧ ∀ c ∈ ds, c.isDigit = true

/-- Decimal value of a digit string. -/
def digitsValue (ds : List Char) : Nat := ds.foldl (fun n c => n * 10 + digitVal c) 0

/-- Text of an optional component: nothing, or the digits followed by the letter. -/
def componentText (d : Option (List Char)) (L : Char) : List Char :=
  match d with
  | none => []
  | some ds => ds ++ [L]

/-- Value of an optional component: an absent one counts as zero. -/
def componentValue (d : Option (List Char)) : Nat :=
  match d with
  | none => 0
  | some ds => digitsValue ds

/-- A component that is present is a non-empty digit string. -/
def ComponentOk (d : Option (List Char)) : Prop :=
  ∀ ds, d = some ds → IsDigits ds

instance (ds : List Char) : Decidable (IsDigits ds) := by
  unfold IsDigits
  infer_instance

instance (d : Option (List Char)) : Decidable (ComponentOk d) :=
  match d with
  | none => isTrue (fun _ h => by cases h)
  | some ds =>
    if h : IsDigits ds then isTrue (fun _ e => by cases e; exact h)
    else isFalse (fun k => h (k ds rfl))

/-- The string `PT` followed by the optional hour, minute and second components. -/
def durationText (h m s : Option (List Char)) : String :=
  String.mk ('P' :: 'T' :: (componentText h 'H' ++ (componentText m 'M' ++ componentText s 'S')))

/-- The whole string has the form `PT[<h>H][<m>M][<s>S]`. -/
def IsDurationText (str : String) : Prop :=
  ∃ h m s, ComponentOk h ∧ ComponentOk m ∧ ComponentOk s ∧ str = durationText h m s

/-! ## Upstream responses and handler payloads -/

/-- One element of `APIError.Errors`. -/
structure APIErrorEntry where
  Reason : String
deriving DecidableEq, Repr

/-- Go `APIError`. -/
structure APIError where
  Message : String
  Errors : List APIErrorEntry
deriving DecidableEq, Repr

/-- One element of `ChannelResponse.Items`: `ContentDetails.RelatedPlaylists.Uploads`
and `Snippet.Title`. -/
structure ChannelItem where
  Uploads : String
  Title : String
deriving DecidableEq, Repr

/-- Go `ChannelResponse`; `Error` is `none` for the nil pointer. -/
structure ChannelResponse where
  Items : List ChannelItem
  Error : Option APIError
deriving DecidableEq, Repr

/-- One element of `PlaylistResponse.Items`: `Snippet.ResourceID.VideoID`. -/
structure PlaylistItem where
  VideoID : String
deriving DecidableEq, Repr

/-- Go `PlaylistResponse`. -/
structure PlaylistResponse where
  Items : List PlaylistItem
  Error : Option APIError
deriving DecidableEq, Repr

/-- One element of `VideosResponse.Items`; `ThumbnailHighURL` is
`Snippet.Thumbnails.High.URL` and `Duration` is `ContentDetails.Duration`. -/
structure VideoItem where
  ID : String
  Title : String
  ChannelTitle : String
  PublishedAt : String
  ThumbnailHighURL : String
  Description : String
  Duration : String
deriving DecidableEq, Repr

/-- Go `VideosResponse`. -/
structure VideosResponse where
  Items : List VideoItem
  Error : Option APIError
deriving DecidableEq, Repr

/-- One element of `SearchResponse.Items`; `ThumbnailDefaultURL` is
`Snippet.Thumbnails.Default.URL`. -/
structure SearchItem where
  ChannelID : String
  Title : String
  Description : String
  ThumbnailDefaultURL : String
deriving DecidableEq, Repr

/-- Go `SearchResponse`. -/
structure SearchResponse where
  Items : List SearchItem
  Error : Option APIError
deriving DecidableEq, Repr

/-- Go `VideoShort`. -/
structure VideoShort where
  ID : String
  Title : String
  ChannelTitle : String
  PublishedAt : String
  Thumbnail : String
  Description : String
deriving DecidableEq, Repr

/-- Go `ShortsResponse`. -/
structure ShortsResponse where
  Shorts : List VideoShort
  ChannelID : String
  ChannelTitle : String
deriving DecidableEq, Repr

/-- Go `ChannelInfo`. -/
structure ChannelInfo where
  ID : String
  Title : String
  Thumbnail : String
  Description : String
deriving DecidableEq, Repr

/-- Go `SearchResult`. -/
structure SearchResult where
  Channels : List ChannelInfo
deriving DecidableEq, Repr

/-- Go `ErrorResponse`. -/
structure ErrorResponse where
  Error : String
  Details : String
  Reason : String
deriving DecidableEq, Repr

/-- The value handed to `respondJSON`: one of the three payload types the
handlers encode. -/
inductive Body where
  | shorts (r : ShortsResponse)
  | search (r : SearchResult)
  | error (e : ErrorResponse)
deriving DecidableEq, Repr

/-- What a handler writes to its `http.ResponseWriter`: status code and body. -/
structure Response where
  status : Nat
  body : Body
deriving DecidableEq, Repr

/-- Go `http.StatusOK`. -/
def StatusOK : Nat := 200

/-- Go `http.StatusNotFound`. -/
def StatusNotFound : Nat := 404

/-- Go `http.StatusInternalServerError`. -/
def StatusInternalServerError : Nat := 500

/-- The answers of `fetchJSON` for one request: for each target type, the URL is
mapped to the transport or decoding error text (`err.Error()`) or to the decoded
response. -/
structure Upstream where
  channels : String → Except String ChannelResponse
  playlistItems : String → Except String PlaylistResponse
  videos : String → Except String VideosResponse
  search : String → Except String SearchResponse

/-- Result of running a handler: the response written, the cache afterwards and
the URLs fetched, in the order of the calls. -/
structure Outcome where
  response : Response
  cache : Cache ShortsResponse
  calls : List String

/-- Go `respondJSON`. -/
def respondJSON (status : Nat) (data : Body) : Response := ⟨status, data⟩

/-- Go `respondError`. -/
def respondError (status : Nat) (error details reason : String) : Response :=
  respondJSON status (Body.error ⟨error, details, reason⟩)

/-- Go `getErrorReason`. -/
def getErrorReason (apiError : Option APIError) : String :=
  match apiError with
  | some e =>
    match e.Errors with
    | first :: _ => first.Reason
    | [] => ""
  | none => ""

/-- URL of the channel lookup (step 1). -/
def channelURL (channelID youtubeAPIKey : String) : String :=
  "https://www.googleapis.com/youtube/v3/channels?part=contentDetails,snippet&id="
    ++ channelID ++ "&key=" ++ youtubeAPIKey

/-- URL of the playlist listing (step 2). -/
def playlistURL (uploadsPlaylistID youtubeAPIKey : String) : String :=
  "https://www.googleapis.com/youtube/v3/playlistItems?part=snippet&playlistId="
    ++ uploadsPlaylistID ++ "&maxResults=50&key=" ++ youtubeAPIKey

/-- URL of the video-details call (step 3). -/
def videosURL (videoIDsStr youtubeAPIKey : String) : String :=
  "https://www.googleapis.com/youtube/v3/videos?part=contentDetails,snippet&id="
    ++ videoIDsStr ++ "&key=" ++ youtubeAPIKey

/-- URL of the channel search; `escaped` is `url.QueryEscape(query)`. -/
def searchURL (escaped youtubeAPIKey : String) : String :=
  "https://www.googleapis.com/youtube/v3/search?part=snippet&q="
    ++ escaped ++ "&type=channel&maxResults=5&key=" ++ youtubeAPIKey

/-- The loop joining the video ids with commas: `acc` is `videoIDsStr` so far and
`i` the index of the next id. -/
def joinVideoIDs (acc : String) (i : Nat) : List String → String
  | [] => acc
  | id :: rest => joinVideoIDs ((if i > 0 then acc ++ "," else acc) ++ id) (i + 1) rest

/-- The `VideoShort` built from one video of the details response. -/
def toVideoShort (video : VideoItem) : VideoShort :=
  { ID := video.ID
    Title := video.Title
    ChannelTitle := video.ChannelTitle
    PublishedAt := video.PublishedAt
    Thumbnail := video.ThumbnailHighURL
    Description := video.Description }

/-- The filter loop of `getShortsHandler`: `shorts` is the slice built so far. -/
def filterShorts (shorts : List VideoShort) : List VideoItem → List VideoShort
  | [] => shorts
  | video :: rest =>
    if parseDuration video.Duration ≤ 60 then filterShorts (shorts ++ [toVideoShort video]) rest
    else filterShorts shorts rest

/-- Go `getShortsHandler`. `nowGet` is the clock reading seen by `cache.Get`,
`nowSet` the one taken by `cache.Set`. -/
def getShortsHandler (youtubeAPIKey : String) (up : Upstream) (cache : Cache ShortsResponse)
    (nowGet nowSet : Int) (channelID : String) : Outcome :=
  let cacheKey := "channel_" ++ channelID
  match cache.Get cacheKey nowGet with
  | (some cached, cache) => ⟨respondJSON StatusOK (Body.shorts cached), cache, []⟩
  | (none, cache) =>
    if youtubeAPIKey = "" then
      ⟨respondError StatusInternalServerError "YouTube API key not configured" "" "", cache, []⟩
    else
      let url1 := channelURL channelID youtubeAPIKey
      match up.channels url1 with
      | Except.error err =>
        ⟨respondError StatusInternalServerError "Failed to fetch channel data" err "", cache, [url1]⟩
      | Except.ok channelData =>
        match channelData.Error with
        | some e =>
          ⟨respondError StatusInternalServerError "YouTube API error" e.Message
            (getErrorReason (some e)), cache, [url1]⟩
        | none =>
          match channelData.Items with
          | [] => ⟨respondError StatusNotFound "Channel not found" "" "", cache, [url1]⟩
          | item0 :: _ =>
            let uploadsPlaylistID := item0.Uploads
            let channelTitle := item0.Title
            let url2 := playlistURL uploadsPlaylistID youtubeAPIKey
            match up.playlistItems url2 with
            | Except.error err =>
              ⟨respondError StatusInternalServerError "Failed to fetch playlist data" err "",
                cache, [url1, url2]⟩
            | Except.ok playlistData =>
              match playlistData.Error with
              | some e =>
                ⟨respondError StatusInternalServerError "YouTube API error (playlist)" e.Message
                  (getErrorReason (some e)), cache, [url1, url2]⟩
              | none =>
                match playlistData.Items with
                | [] =>
                  ⟨respondJSON StatusOK (Body.shorts ⟨[], channelID, channelTitle⟩),
                    cache, [url1, url2]⟩
                | p0 :: ps =>
                  let videoIDs := (p0 :: ps).map PlaylistItem.VideoID
                  let videoIDsStr := joinVideoIDs "" 0 videoIDs
                  let url3 := videosURL videoIDsStr youtubeAPIKey
                  match up.videos url3 with
                  | Except.error err =>
                    ⟨respondError StatusInternalServerError "Failed to fetch videos data" err "",
                      cache, [url1, url2, url3]⟩
                  | Except.ok videosData =>
                    match videosData.Error with
                    | some e =>
                      ⟨respondError StatusInternalServerError "YouTube API error (videos)"
                        e.Message (getErrorReason (some e)), cache, [url1, url2, url3]⟩
                    | none =>
                      let shorts := filterShorts [] videosData.Items
                      let result : ShortsResponse := ⟨shorts, channelID, channelTitle⟩
                      ⟨respondJSON StatusOK (Body.shorts result),
                        cache.Set cacheKey result nowSet, [url1, url2, url3]⟩

/-- Go `searchChannelsHandler`. `QueryEscape` stands for `url.QueryEscape`; the
handler does not touch the cache, which is passed through. -/
def searchChannelsHandler (QueryEscape : String → String) (youtubeAPIKey : String)
    (up : Upstream) (cache : Cache ShortsResponse) (query : String) : Outcome :=
  if youtubeAPIKey = "" then
    ⟨respondError StatusInternalServerError "YouTube API key not configured" "" "", cache, []⟩
  else
    let url := searchURL (QueryEscape query) youtubeAPIKey
    match up.search url with
    | Except.error err =>
      ⟨respondError StatusInternalServerError "Failed to search channels" err "", cache, [url]⟩
    | Except.ok searchData =>
      match searchData.Items with
      | [] => ⟨respondError StatusNotFound "Channel not found" "" "", cache, [url]⟩
      | i0 :: is =>
        let channels := (i0 :: is).map
          (fun item => (⟨item.ChannelID, item.Title, item.ThumbnailDefaultURL,
            item.Description⟩ : ChannelInfo))
        ⟨respondJSON StatusOK (Body.search ⟨channels⟩), cache, [url]⟩

/-- A request to one of the two endpoints, together with what the outside world
answers while it is served: the upstream answers and, for a shorts request, the
two clock readings. -/
inductive Request where
  | shorts (channelID : String) (up : Upstream) (nowGet nowSet : Int)
  | search (query : String) (up : Upstream)

/-- Serve one request on the given cache. -/
def handle (QueryEscape : String → String) (youtubeAPIKey : String)
    (cache : Cache ShortsResponse) : Request → Outcome
  | Request.shorts channelID up nowGet nowSet =>
    getShortsHandler youtubeAPIKey up cache nowGet nowSet channelID
  | Request.search query up => searchChannelsHandler QueryEscape youtubeAPIKey up cache query

/-- Serve a sequence of requests one after the other, each on the cache left by
the one before; the outcomes are listed in the order of the requests. -/
def serve (QueryEscape : String → String) (youtubeAPIKey : String) :
    Cache ShortsResponse → List Request → List Outcome
  | _, [] => []
  | cache, r :: rs =>
    (handle QueryEscape youtubeAPIKey cache r) ::
      serve QueryEscape youtubeAPIKey (handle QueryEscape youtubeAPIKey cache r).cache rs

/-- The cache left after serving a sequence of requests. -/
def serveCache (QueryEscape : String → String) (youtubeAPIKey : String) :
    Cache ShortsResponse → List Request → Cache ShortsResponse
  | cache, [] => cache
  | cache, r :: rs =>
    serveCache QueryEscape youtubeAPIKey (handle QueryEscape youtubeAPIKey cache r).cache rs

/-- The request cannot replace a cache entry stored for `channelID` at clock
reading `t`: it is a search, a shorts request for another channel, or a shorts
request for `channelID` whose cache lookup happens within one hour of `t`. -/
def Request.keepsEntry (channelID : String) (t : Int) : Request → Prop
  | Request.shorts cid _ nowGet _ => cid ≠ channelID ∨ nowGet - t ≤ Hour
  | Request.search _ _ => True

/-! ## Sample inputs -/

/-- A sample video of the details response with the given id and duration text. -/
def sampleVideo (id duration : String) : VideoItem :=
  ⟨id, "title", "Channel", "2024-01-01T00:00:00Z", "thumb", "description", duration⟩

/-- A sample structured upstream error with one sub-error. -/
def sampleAPIError : APIError := ⟨"Quota exceeded", [⟨"quotaExceeded"⟩]⟩

/-- A sample upstream: one channel `Channel` with uploads playlist `UU1`, two
playlist entries, the given videos, and one search hit; no call fails. -/
def sampleUpstream (videos : List VideoItem) : Upstream :=
  { channels := fun _ => Except.ok ⟨[⟨"UU1", "Channel"⟩], none⟩
    playlistItems := fun _ => Except.ok ⟨[⟨"a"⟩, ⟨"b"⟩], none⟩
    videos := fun _ => Except.ok ⟨videos, none⟩
    search := fun _ => Except.ok ⟨[⟨"UC1", "Channel", "about", "thumb"⟩], none⟩ }

/-- A sample upstream whose channel has an empty uploads playlist. -/
def emptyPlaylistUpstream : Upstream :=
  { sampleUpstream [] with playlistItems := fun _ => Except.ok ⟨[], none⟩ }

/-- A sample upstream answering every call with the structured error
`sampleAPIError` and no items. -/
def errorUpstream : Upstream :=
  { channels := fun _ => Except.ok ⟨[], some sampleAPIError⟩
    playlistItems := fun _ => Except.ok ⟨[], some sampleAPIError⟩
    videos := fun _ => Except.ok ⟨[], some sampleAPIError⟩
    search := fun _ => Except.ok ⟨[], some sampleAPIError⟩ }

/-- A sample upstream whose search answer carries both the structured error
`sampleAPIError` and one item. -/
def errorWithItemsUpstream : Upstream :=
  { errorUpstream with
    search := fun _ => Except.ok ⟨[⟨"UC1", "Channel", "about", "thumb"⟩], some sampleAPIError⟩ }

/-! ### Cache lemmas -/

theorem Cache.items_Set_same {α : Type} (c : Cache α) (k : String) (v : α) (t : Int) :
    (c.Set k v t).items k = some ⟨v, t⟩ := by
  simp [Cache.Set]

theorem Cache.items_Set_other {α : Type} (c : Cache α) (k k' : String) (v : α) (t : Int)
    (h : k' ≠ k) : (c.Set k v t).items k' = c.items k' := by
  simp [Cache.Set, h]

theorem Cache.items_SetAll_other {α : Type} (ops : List (String × α × Int)) :
    ∀ (c : Cache α) (k : String), (∀ op ∈ ops, op.1 ≠ k) →
      (c.SetAll ops).items k = c.items k := by
  induction ops with
  | nil => intro c k _; rfl
  | cons op rest ih =>
    intro c k h
    obtain ⟨k1, v1, t1⟩ := op
    have h1 : k1 ≠ k := h (k1, v1, t1) (List.mem_cons_self _ _)
    have h2 : ∀ op ∈ rest, op.1 ≠ k := fun op hop => h op (List.mem_cons_of_mem _ hop)
    simp only [Cache.SetAll]
    rw [ih (c.Set k1 v1 t1) k h2]
    exact Cache.items_Set_other c k1 k v1 t1 (Ne.symm h1)

theorem timeSince_le_Hour {now ts : Int} (h : now - ts ≤ Hour) : ¬ timeSince now ts > Hour := by
  unfold timeSince
  have hH : Hour = 3600000000000 := by norm_num [Hour]
  have hM : maxDuration = 9223372036854775807 := by norm_num [maxDuration]
  have hm : minDuration = -9223372036854775808 := by norm_num [minDuration]
  split_ifs <;> omega

theorem timeSince_gt_Hour {now ts : Int} (h : now - ts > Hour) : timeSince now ts > Hour := by
  unfold timeSince
  have hH : Hour = 3600000000000 := by norm_num [Hour]
  have hM : maxDuration = 9223372036854775807 := by norm_num [maxDuration]
  have hm : minDuration = -9223372036854775808 := by norm_num [minDuration]
  split_ifs <;> omega

theorem Cache.Get_fresh {α : Type} (c : Cache α) (k : String) (v : α) (t now : Int)
    (hitem : c.items k = some ⟨v, t⟩) (h : now - t ≤ Hour) :
    c.Get k now = (some v, c) := by
  simp [Cache.Get, hitem, timeSince_le_Hour h]

theorem Cache.Get_stale {α : Type} (c : Cache α) (k : String) (v : α) (t now : Int)
    (hitem : c.items k = some ⟨v, t⟩) (h : now - t > Hour) :
    c.Get k now = (none, c) := by
  simp [Cache.Get, hitem, timeSince_gt_Hour h]

theorem Cache.Get_snd {α : Type} (c : Cache α) (k : String) (now : Int) :
    (c.Get k now).2 = c := by
  unfold Cache.Get
  split
  · rfl
  · split <;> rfl

/-! ### Claims about the cache -/

/-- C1: after `Set(k, v)` at clock reading `t`, followed by any run of `Set`
calls to keys other than `k`, a `Get(k)` at a reading `t'` with `t ≤ t'` and
`t' - t` at most one hour returns `(v, true)`. -/
theorem C1_get_after_set_within_ttl {α : Type} (c : Cache α) (k : String) (v : α)
    (t t' : Int) (ops : List (String × α × Int))
    (_hle : t ≤ t') (httl : t' - t ≤ Hour) (hother : ∀ op ∈ ops, op.1 ≠ k) :
    (((c.Set k v t).SetAll ops).Get k t').1 = some v := by
  have hitem : ((c.Set k v t).SetAll ops).items k = some ⟨v, t⟩ := by
    rw [Cache.items_SetAll_other ops (c.Set k v t) k hother]
    exact Cache.items_Set_same c k v t
  rw [Cache.Get_fresh _ k v t t' hitem httl]

theorem C1_get_after_set_within_ttl_witness :
    ((((NewCache : Cache Nat).Set "a" 7 100).SetAll
        [("b", 8, 150), ("c", 9, 200)]).Get "a" (100 + Hour)).1 = some 7 :=
  C1_get_after_set_within_ttl NewCache "a" 7 100 (100 + Hour) [("b", 8, 150), ("c", 9, 200)]
    (by norm_num [Hour]) (by norm_num [Hour]) (by decide)

/-- C2: when the entry of `k` was stored at clock reading `t`, a `Get(k)` at a
reading `t'` with `t' - t` greater than one hour returns `found = false`, and
the cache after the call is the cache before it: the stale entry is still
there. -/
theorem C2_get_after_ttl_not_found {α : Type} (c : Cache α) (k : String) (v : α)
    (t t' : Int) (hitem : c.items k = some ⟨v, t⟩) (hexp : t' - t > Hour) :
    (c.Get k t').1 = none ∧ (c.Get k t').2 = c ∧
      (c.Get k t').2.items k = some ⟨v, t⟩ := by
  rw [Cache.Get_stale c k v t t' hitem hexp]
  exact ⟨rfl, rfl, hitem⟩

theorem C2_get_after_ttl_not_found_witness :
    (((NewCache : Cache Nat).Set "a" 7 100).Get "a" (101 + Hour)).1 = none ∧
    (((NewCache : Cache Nat).Set "a" 7 100).Get "a" (101 + Hour)).2
      = (NewCache : Cache Nat).Set "a" 7 100 ∧
    (((NewCache : Cache Nat).Set "a" 7 100).Get "a" (101 + Hour)).2.items "a"
      = some ⟨7, 100⟩ :=
  C2_get_after_ttl_not_found ((NewCache : Cache Nat).Set "a" 7 100) "a" 7 100 (101 + Hour)
    (Cache.items_Set_same _ _ _ _) (by norm_num [Hour])

/-! ### Lemmas about number parsing -/

theorem digits_foldl_ge (ds : List Char) :
    ∀ n : Nat, n ≤ ds.foldl (fun n c => n * 10 + digitVal c) n := by
  induction ds with
  | nil => intro n; exact le_refl n
  | cons c cs ih =>
    intro n
    simp only [List.foldl_cons]
    exact le_trans (by omega) (ih (n * 10 + digitVal c))

theorem parseUintLoop_digits (ds : List Char) :
    ∀ n : Nat, n ≤ maxUint64 → (∀ c ∈ ds, c.isDigit = true) →
      parseUintLoop n ds =
        if ds.foldl (fun n c => n * 10 + digitVal c) n ≤ maxUint64
        then (ds.foldl (fun n c => n * 10 + digitVal c) n, none)
        else (maxUint64, some NumError.errRange) := by
  induction ds with
  | nil =>
    intro n hn _
    simp only [parseUintLoop, List.foldl_nil]
    rw [if_pos hn]
  | cons c cs ih =>
    intro n _ h
    have hc : c.isDigit = true := h c (List.mem_cons_self _ _)
    have hcs : ∀ c ∈ cs, c.isDigit = true := fun c hc => h c (List.mem_cons_of_mem _ hc)
    have hM : maxUint64 = 18446744073709551615 := by norm_num [maxUint64]
    have hge := digits_foldl_ge cs (n * 10 + digitVal c)
    simp only [parseUintLoop, List.foldl_cons, hc, Bool.not_true, Bool.false_eq_true, if_false]
    by_cases h1 : n ≥ maxUint64 / 10 + 1
    · rw [if_pos h1, if_neg (by omega)]
    · rw [if_neg h1]
      by_cases h2 : n * 10 + digitVal c > maxUint64
      · rw [if_pos h2, if_neg (by omega)]
      · rw [if_neg h2]
        exact ih (n * 10 + digitVal c) (by omega) hcs

theorem ParseInt_digits (ds : List Char) (h : IsDigits ds) :
    (ParseInt ds).1 = min (digitsValue ds : Int) maxInt64 := by
  obtain ⟨hne, hall⟩ := h
  have hloop := parseUintLoop_digits ds 0 (by norm_num [maxUint64]) hall
  have hM : maxUint64 = 18446744073709551615 := by norm_num [maxUint64]
  have hI : maxInt64 = 9223372036854775807 := by norm_num [maxInt64]
  cases ds with
  | nil => exact absurd rfl hne
  | cons c cs =>
    have hc : c.isDigit = true := hall c (List.mem_cons_self _ _)
    have hplus : (c == '+') = false := by
      rcases Bool.eq_false_or_eq_true (c == '+') with h | h
      · rw [beq_iff_eq] at h; subst h; exact absurd hc (by decide)
      · exact h
    have hminus : (c == '-') = false := by
      rcases Bool.eq_false_or_eq_true (c == '-') with h | h
      · rw [beq_iff_eq] at h; subst h; exact absurd hc (by decide)
      · exact h
    simp only [ParseInt, hplus, hminus, ParseUint, digitsValue, Bool.false_eq_true, or_self,
      if_false, hloop]
    generalize List.foldl (fun n c => n * 10 + digitVal c) 0 (c :: cs) = V
    by_cases hV : V ≤ maxUint64
    · rw [if_pos hV]
      by_cases h63 : V ≥ 2 ^ 63
      · simp only [Bool.not_false, true_and, h63, if_true]
        rw [hI]; omega
      · simp only [Bool.not_false, true_and, h63, if_false, false_and]
        rw [hI]; omega
    · rw [if_neg hV]
      have h63 : maxUint64 ≥ 2 ^ 63 := by rw [hM]; norm_num
      simp only [Bool.not_false, true_and, h63, if_true]
      rw [hI]; omega

theorem parseIntOrZero_mk_nil : parseIntOrZero (String.mk []) = 0 := by
  decide

theorem parseIntOrZero_mk_digits (ds : List Char) (h : IsDigits ds) :
    parseIntOrZero (String.mk ds) = min (digitsValue ds : Int) maxInt64 := by
  have hne : String.mk ds ≠ "" := by
    intro heq
    exact h.1 (congrArg String.data heq)
  unfold parseIntOrZero
  rw [if_neg hne]
  exact ParseInt_digits ds h

/-! ### Lemmas about the pattern match -/

theorem matchComponent_nil (L : Char) : matchComponent L [] = ([], []) := by
  rfl

theorem matchComponent_hit (L : Char) (ds rest : List Char) (h : IsDigits ds)
    (hL : L.isDigit = false) : matchComponent L (ds ++ L :: rest) = (ds, rest) := by
  obtain ⟨hne, hall⟩ := h
  unfold matchComponent
  rw [List.takeWhile_append_of_pos hall, List.dropWhile_append_of_pos hall]
  cases ds with
  | nil => exact absurd rfl hne
  | cons d ds => simp [List.takeWhile, List.dropWhile, hL]

theorem matchComponent_miss (L c : Char) (ds rest : List Char)
    (hall : ∀ x ∈ ds, x.isDigit = true) (hc : c.isDigit = false) (hne : c ≠ L) :
    matchComponent L (ds ++ c :: rest) = ([], ds ++ c :: rest) := by
  unfold matchComponent
  rw [List.takeWhile_append_of_pos hall, List.dropWhile_append_of_pos hall]
  cases ds with
  | nil => simp [List.takeWhile, List.dropWhile, hc]
  | cons d ds => simp [List.takeWhile, List.dropWhile, hc, hne]

theorem matchComponent_present (d : Option (List Char)) (L : Char) (tail : List Char)
    (hd : ComponentOk d) (hL : L.isDigit = false)
    (htail : matchComponent L tail = ([], tail)) :
    matchComponent L (componentText d L ++ tail) = (d.getD [], tail) := by
  cases d with
  | none => simpa [componentText] using htail
  | some ds =>
    have := matchComponent_hit L ds tail (hd ds rfl) hL
    simpa [componentText] using this

theorem matchComponent_other (d : Option (List Char)) (L K : Char) (tail : List Char)
    (hd : ComponentOk d) (hK : K.isDigit = false) (hne : K ≠ L)
    (htail : matchComponent L tail = ([], tail)) :
    matchComponent L (componentText d K ++ tail) = ([], componentText d K ++ tail) := by
  cases d with
  | none => simpa [componentText] using htail
  | some ds =>
    have := matchComponent_miss L K ds tail (hd ds rfl).2 hK hne
    simpa [componentText] using this

theorem findPT_PT (rest : List Char) : findPT ('P' :: 'T' :: rest) = some rest := by
  simp [findPT]

theorem FindStringSubmatch_durationText (h m s : Option (List Char))
    (hh : ComponentOk h) (hm : ComponentOk m) (hs : ComponentOk s) :
    FindStringSubmatch (durationText h m s) =
      some (String.mk (h.getD []), String.mk (m.getD []), String.mk (s.getD [])) := by
  have e3 : matchComponent 'S' (componentText s 'S') = (s.getD [], []) := by
    have := matchComponent_present s 'S' [] hs (by decide) (matchComponent_nil _)
    simpa using this
  have s2 : matchComponent 'M' (componentText s 'S') = ([], componentText s 'S') := by
    have := matchComponent_other s 'M' 'S' [] hs (by decide) (by decide) (matchComponent_nil _)
    simpa using this
  have s1 : matchComponent 'H' (componentText s 'S') = ([], componentText s 'S') := by
    have := matchComponent_other s 'H' 'S' [] hs (by decide) (by decide) (matchComponent_nil _)
    simpa using this
  have e2 := matchComponent_present m 'M' (componentText s 'S') hm (by decide) s2
  have m1 := matchComponent_other m 'H' 'M' (componentText s 'S') hm (by decide) (by decide) s1
  have e1 := matchComponent_present h 'H' (componentText m 'M' ++ componentText s 'S') hh
    (by decide) m1
  simp only [FindStringSubmatch, durationText, String.toList, findPT_PT, e1, e2, e3]

theorem wrapInt64_of_range (x : Int) (h0 : 0 ≤ x) (h1 : x ≤ maxInt64) : wrapInt64 x = x := by
  have hI : maxInt64 = 9223372036854775807 := by norm_num [maxInt64]
  unfold wrapInt64
  omega

theorem parseIntOrZero_component (d : Option (List Char)) (hd : ComponentOk d) :
    parseIntOrZero (String.mk (d.getD [])) = min (componentValue d : Int) maxInt64 := by
  cases d with
  | none =>
    simp only [Option.getD, componentValue, parseIntOrZero_mk_nil]
    norm_num [maxInt64]
  | some ds => exact parseIntOrZero_mk_digits ds (hd ds rfl)

theorem parseDuration_durationText (h m s : Option (List Char))
    (hh : ComponentOk h) (hm : ComponentOk m) (hs : ComponentOk s)
    (hfit : componentValue h * 3600 + componentValue m * 60 + componentValue s ≤ 2 ^ 63 - 1) :
    parseDuration (durationText h m s) =
      ((componentValue h * 3600 + componentValue m * 60 + componentValue s : Nat) : Int) := by
  have hI : maxInt64 = 9223372036854775807 := by norm_num [maxInt64]
  simp only [parseDuration, FindStringSubmatch_durationText h m s hh hm hs,
    parseIntOrZero_component h hh, parseIntOrZero_component m hm, parseIntOrZero_component s hs]
  have h1 : min (componentValue h : Int) maxInt64 = componentValue h := by
    rw [hI]; omega
  have h2 : min (componentValue m : Int) maxInt64 = componentValue m := by
    rw [hI]; omega
  have h3 : min (componentValue s : Int) maxInt64 = componentValue s := by
    rw [hI]; omega
  rw [h1, h2, h3]
  rw [wrapInt64_of_range (componentValue h * 3600) (by omega) (by rw [hI]; omega),
    wrapInt64_of_range (componentValue m * 60) (by omega) (by rw [hI]; omega),
    wrapInt64_of_range (componentValue h * 3600 + componentValue m * 60) (by omega)
      (by rw [hI]; omega),
    wrapInt64_of_range _ (by omega) (by rw [hI]; omega)]
  push_cast
  ring

theorem findPT_none_of_not_infix (cs : List Char) :
    ¬ (['P', 'T'] <:+: cs) → findPT cs = none := by
  induction cs with
  | nil => intro _; rfl
  | cons c cs ih =>
    intro hno
    have hcs : ¬ (['P', 'T'] <:+: cs) := fun hin => hno (List.IsInfix.trans hin
      (List.suffix_cons c cs).isInfix)
    unfold findPT
    split
    · rename_i rest
      exact absurd (List.prefix_append ['P', 'T'] rest).isInfix hno
    · exact ih hcs

/-! ### Claims about duration parsing -/

/-- C3 (as stated, refuted): the string `PT99999999999999999999S` has the form
`PT<s>S` with a digit string `s`, yet `parseDuration` returns the saturated value
`9223372036854775807`, not `99999999999999999999`. -/
theorem C3_counterexample_saturated_component :
    ComponentOk none ∧ ComponentOk (some "99999999999999999999".toList) ∧
    durationText none none (some "99999999999999999999".toList) = "PT99999999999999999999S" ∧
    parseDuration (durationText none none (some "99999999999999999999".toList))
      = 9223372036854775807 ∧
    parseDuration (durationText none none (some "99999999999999999999".toList))
      ≠ ((componentValue none * 3600 + componentValue none * 60
          + componentValue (some "99999999999999999999".toList) : Nat) : Int) := by
  decide

/-- C3 (amended): for every string `PT[<h>H][<m>M][<s>S]` whose components are
non-empty digit strings and for which `h*3600 + m*60 + s` (an absent component
counting as zero) is at most `2^63 - 1`, `parseDuration` returns that sum; and
`parseDuration("PT1H2M3S") = 3723`, `parseDuration("PT2M3S") = 123`,
`parseDuration("PT3S") = 3`. -/
theorem C3_parseDuration_formula (h m s : Option (List Char))
    (hh : ComponentOk h) (hm : ComponentOk m) (hs : ComponentOk s)
    (hfit : componentValue h * 3600 + componentValue m * 60 + componentValue s ≤ 2 ^ 63 - 1) :
    parseDuration (durationText h m s) =
      ((componentValue h * 3600 + componentValue m * 60 + componentValue s : Nat) : Int) ∧
    parseDuration "PT1H2M3S" = 3723 ∧ parseDuration "PT2M3S" = 123 ∧
    parseDuration "PT3S" = 3 :=
  ⟨parseDuration_durationText h m s hh hm hs hfit, by decide, by decide, by decide⟩

theorem C3_parseDuration_formula_witness :
    parseDuration (durationText (some "12".toList) none (some "7".toList)) =
      ((componentValue (some "12".toList) * 3600 + componentValue none * 60
        + componentValue (some "7".toList) : Nat) : Int) ∧
    parseDuration "PT1H2M3S" = 3723 ∧ parseDuration "PT2M3S" = 123 ∧
    parseDuration "PT3S" = 3 :=
  C3_parseDuration_formula (some "12".toList) none (some "7".toList)
    (by decide) (by decide) (by decide) (by decide)

/-- C4 (as stated, refuted): `PT1Mx` and `xPT1M` are not, as a whole, of the form
`PT[<h>H][<m>M][<s>S]`, yet `parseDuration` returns 60 on both: the pattern is
searched anywhere in the string and need not cover it. -/
theorem C4_counterexample_unanchored :
    ¬ IsDurationText "PT1Mx" ∧ parseDuration "PT1Mx" = 60 ∧
    ¬ IsDurationText "xPT1M" ∧ parseDuration "xPT1M" = 60 := by
  refine ⟨?_, by decide, ?_, by decide⟩
  · rintro ⟨h, m, s, _, _, _, heq⟩
    have hd := congrArg String.data heq
    simp only [durationText] at hd
    have hl := congrArg List.reverse hd
    cases s with
    | some ds => simp [componentText] at hl
    | none =>
      cases m with
      | some dm => simp [componentText] at hl
      | none =>
        cases h with
        | some dh => simp [componentText] at hl
        | none => simp [componentText] at hd
  · rintro ⟨h, m, s, _, _, _, heq⟩
    have hd := congrArg String.data heq
    simp [durationText] at hd

/-- C4 (amended): for every string in which `PT` does not occur, `parseDuration`
returns 0; and `parseDuration("PT") = 0`. -/
theorem C4_parseDuration_no_match (str : String) (hno : ¬ (['P', 'T'] <:+: str.toList)) :
    parseDuration str = 0 ∧ parseDuration "PT" = 0 := by
  refine ⟨?_, by decide⟩
  simp only [parseDuration, FindStringSubmatch, findPT_none_of_not_infix str.toList hno]

theorem C4_parseDuration_no_match_witness :
    parseDuration "P1DT2H" = 0 ∧ parseDuration "PT" = 0 :=
  C4_parseDuration_no_match "P1DT2H" (by decide)

/-- C10 (the code at the failing input): for the duration `PT2562047788015216H`
the product `hours*3600` leaves the signed 64-bit range, `parseDuration` returns
a negative number, and the filter loop keeps the video as a short. -/
theorem C10_overflow_gives_negative_duration :
    parseDuration "PT2562047788015216H" = -9223372036854774016 ∧
    parseDuration "PT2562047788015216H" < 0 ∧
    filterShorts [] [⟨"v1", "t", "c", "p", "u", "d", "PT2562047788015216H"⟩]
      = [⟨"v1", "t", "c", "p", "u", "d"⟩] := by
  decide

/-! ### Lemmas about the handlers -/

theorem Cache.Get_eq {α : Type} (c : Cache α) (k : String) (now : Int) :
    c.Get k now = ((c.Get k now).1, c) := by
  have h := Cache.Get_snd c k now
  exact Prod.ext rfl h

theorem filterShorts_eq (videos : List VideoItem) :
    ∀ acc : List VideoShort, filterShorts acc videos =
      acc ++ (videos.filter (fun v => decide (parseDuration v.Duration ≤ 60))).map toVideoShort := by
  induction videos with
  | nil => intro acc; simp [filterShorts]
  | cons v vs ih =>
    intro acc
    by_cases hv : parseDuration v.Duration ≤ 60
    · simp [filterShorts, hv, ih]
    · simp [filterShorts, hv, ih]

theorem getShortsHandler_hit (youtubeAPIKey : String) (up : Upstream)
    (cache : Cache ShortsResponse) (nowGet nowSet : Int) (channelID : String)
    (cached : ShortsResponse)
    (hhit : (cache.Get ("channel_" ++ channelID) nowGet).1 = some cached) :
    getShortsHandler youtubeAPIKey up cache nowGet nowSet channelID =
      ⟨respondJSON StatusOK (Body.shorts cached), cache, []⟩ := by
  have hG := Cache.Get_eq cache ("channel_" ++ channelID) nowGet
  rw [hhit] at hG
  simp only [getShortsHandler, hG]

theorem getShortsHandler_no_key (up : Upstream)
    (cache : Cache ShortsResponse) (nowGet nowSet : Int) (channelID : String)
    (hmiss : (cache.Get ("channel_" ++ channelID) nowGet).1 = none) :
    getShortsHandler "" up cache nowGet nowSet channelID =
      ⟨respondError StatusInternalServerError "YouTube API key not configured" "" "",
        cache, []⟩ := by
  have hG := Cache.Get_eq cache ("channel_" ++ channelID) nowGet
  rw [hmiss] at hG
  simp only [getShortsHandler, hG, if_true]

theorem getShortsHandler_empty_playlist (youtubeAPIKey : String) (up : Upstream)
    (cache : Cache ShortsResponse) (nowGet nowSet : Int) (channelID : String)
    (item0 : ChannelItem) (items : List ChannelItem)
    (hmiss : (cache.Get ("channel_" ++ channelID) nowGet).1 = none)
    (hkey : youtubeAPIKey ≠ "")
    (hch : up.channels (channelURL channelID youtubeAPIKey) = Except.ok ⟨item0 :: items, none⟩)
    (hpl : up.playlistItems (playlistURL item0.Uploads youtubeAPIKey) = Except.ok ⟨[], none⟩) :
    getShortsHandler youtubeAPIKey up cache nowGet nowSet channelID =
      ⟨respondJSON StatusOK (Body.shorts ⟨[], channelID, item0.Title⟩), cache,
        [channelURL channelID youtubeAPIKey, playlistURL item0.Uploads youtubeAPIKey]⟩ := by
  have hG := Cache.Get_eq cache ("channel_" ++ channelID) nowGet
  rw [hmiss] at hG
  simp only [getShortsHandler, hG, if_neg hkey, hch, hpl]

theorem getShortsHandler_full (youtubeAPIKey : String) (up : Upstream)
    (cache : Cache ShortsResponse) (nowGet nowSet : Int) (channelID : String)
    (item0 : ChannelItem) (items : List ChannelItem) (p0 : PlaylistItem)
    (ps : List PlaylistItem) (videos : List VideoItem)
    (hmiss : (cache.Get ("channel_" ++ channelID) nowGet).1 = none)
    (hkey : youtubeAPIKey ≠ "")
    (hch : up.channels (channelURL channelID youtubeAPIKey) = Except.ok ⟨item0 :: items, none⟩)
    (hpl : up.playlistItems (playlistURL item0.Uploads youtubeAPIKey)
      = Except.ok ⟨p0 :: ps, none⟩)
    (hvd : up.videos (videosURL (joinVideoIDs "" 0 ((p0 :: ps).map PlaylistItem.VideoID))
      youtubeAPIKey) = Except.ok ⟨videos, none⟩) :
    getShortsHandler youtubeAPIKey up cache nowGet nowSet channelID =
      ⟨respondJSON StatusOK (Body.shorts ⟨filterShorts [] videos, channelID, item0.Title⟩),
        cache.Set ("channel_" ++ channelID) ⟨filterShorts [] videos, channelID, item0.Title⟩
          nowSet,
        [channelURL channelID youtubeAPIKey, playlistURL item0.Uploads youtubeAPIKey,
          videosURL (joinVideoIDs "" 0 ((p0 :: ps).map PlaylistItem.VideoID)) youtubeAPIKey]⟩ := by
  have hG := Cache.Get_eq cache ("channel_" ++ channelID) nowGet
  rw [hmiss] at hG
  simp only [getShortsHandler, hG, if_neg hkey, hch, hpl, hvd]

theorem getShortsHandler_cases (youtubeAPIKey : String) (up : Upstream)
    (cache : Cache ShortsResponse) (nowGet nowSet : Int) (channelID : String) :
    ((getShortsHandler youtubeAPIKey up cache nowGet nowSet channelID).cache = cache ∧
      ¬ ((getShortsHandler youtubeAPIKey up cache nowGet nowSet channelID).calls.length = 3 ∧
        (getShortsHandler youtubeAPIKey up cache nowGet nowSet channelID).response.status
          = StatusOK)) ∨
    (∃ r : ShortsResponse,
      (getShortsHandler youtubeAPIKey up cache nowGet nowSet channelID).response
        = ⟨StatusOK, Body.shorts r⟩ ∧
      (getShortsHandler youtubeAPIKey up cache nowGet nowSet channelID).cache
        = cache.Set ("channel_" ++ channelID) r nowSet) := by
  have hG := Cache.Get_eq cache ("channel_" ++ channelID) nowGet
  unfold getShortsHandler
  simp only []
  rw [hG]
  generalize (cache.Get ("channel_" ++ channelID) nowGet).1 = g
  cases g with
  | some cached => left; simp
  | none =>
    simp only []
    repeat' split
    all_goals first
      | (left; simp [respondError, respondJSON, StatusOK, StatusInternalServerError,
          StatusNotFound]; done)
      | (right; exact ⟨_, rfl, rfl⟩)

theorem channel_key_injective (a b : String) (h : "channel_" ++ a = "channel_" ++ b) :
    a = b := by
  have hd := congrArg String.data h
  rw [String.data_append, String.data_append] at hd
  exact String.ext (List.append_cancel_left hd)

theorem searchChannelsHandler_cache (QueryEscape : String → String) (youtubeAPIKey : String)
    (up : Upstream) (cache : Cache ShortsResponse) (query : String) :
    (searchChannelsHandler QueryEscape youtubeAPIKey up cache query).cache = cache := by
  unfold searchChannelsHandler
  simp only []
  repeat' split
  all_goals rfl

theorem handle_keeps_entry (QueryEscape : String → String) (youtubeAPIKey : String)
    (cache : Cache ShortsResponse) (channelID : String) (P : ShortsResponse) (t : Int)
    (r : Request) (hr : r.keepsEntry channelID t)
    (hitem : cache.items ("channel_" ++ channelID) = some ⟨P, t⟩) :
    (handle QueryEscape youtubeAPIKey cache r).cache.items ("channel_" ++ channelID)
      = some ⟨P, t⟩ := by
  cases r with
  | search query up =>
    simp only [handle, searchChannelsHandler_cache]
    exact hitem
  | shorts cid up nowGet nowSet =>
    simp only [handle]
    by_cases hcid : cid = channelID
    · subst hcid
      have hfresh : nowGet - t ≤ Hour := by
        rcases hr with h | h
        · exact absurd rfl h
        · exact h
      have hget := Cache.Get_fresh cache ("channel_" ++ cid) P t nowGet hitem hfresh
      rw [getShortsHandler_hit youtubeAPIKey up cache nowGet nowSet cid P (by rw [hget])]
      exact hitem
    · rcases getShortsHandler_cases youtubeAPIKey up cache nowGet nowSet cid with h | ⟨r, _, h⟩
      · rw [h.1]; exact hitem
      · rw [h, Cache.items_Set_other _ _ _ _ _
          (fun e => hcid (channel_key_injective channelID cid e).symm)]
        exact hitem

theorem serveCache_keeps_entry (QueryEscape : String → String) (youtubeAPIKey : String)
    (channelID : String) (P : ShortsResponse) (t : Int) (reqs : List Request) :
    ∀ cache : Cache ShortsResponse, (∀ r ∈ reqs, r.keepsEntry channelID t) →
      cache.items ("channel_" ++ channelID) = some ⟨P, t⟩ →
      (serveCache QueryEscape youtubeAPIKey cache reqs).items ("channel_" ++ channelID)
        = some ⟨P, t⟩ := by
  induction reqs with
  | nil => intro cache _ h; exact h
  | cons r rs ih =>
    intro cache hall hitem
    simp only [serveCache]
    exact ih _ (fun x hx => hall x (List.mem_cons_of_mem _ hx))
      (handle_keeps_entry QueryEscape youtubeAPIKey cache channelID P t r
        (hall r (List.mem_cons_self _ _)) hitem)

theorem handle_no_key (QueryEscape : String → String) (cache : Cache ShortsResponse)
    (hempty : ∀ k, cache.items k = none) (r : Request) :
    handle QueryEscape "" cache r =
      ⟨respondError StatusInternalServerError "YouTube API key not configured" "" "",
        cache, []⟩ := by
  cases r with
  | search query up => simp [handle, searchChannelsHandler]
  | shorts cid up nowGet nowSet =>
    simp only [handle]
    exact getShortsHandler_no_key up cache nowGet nowSet cid
      (by simp [Cache.Get, hempty])

theorem serve_no_key (QueryEscape : String → String) (reqs : List Request) :
    ∀ cache : Cache ShortsResponse, (∀ k, cache.items k = none) →
      serve QueryEscape "" cache reqs = List.replicate reqs.length
        ⟨respondError StatusInternalServerError "YouTube API key not configured" "" "",
          cache, []⟩ := by
  induction reqs with
  | nil => intro cache _; rfl
  | cons r rs ih =>
    intro cache hempty
    simp only [serve, handle_no_key QueryEscape cache hempty r, List.length_cons,
      List.replicate_succ]
    rw [ih cache hempty]

/-! ### Claims about the handlers -/

/-- C5: when the request reaches the video-details call and that call returns the
list `videos` without error, the shorts sequence of the response is `videos`
filtered by `parseDuration(duration) <= 60`, in the same order, each kept video
mapped field by field to a `VideoShort`: `ID`, `Title`, `ChannelTitle`,
`PublishedAt` and `Description` are copied from the fields of the same name and
`Thumbnail` is the high-resolution thumbnail URL. Of four videos lasting 30, 60,
61 and 3723 seconds exactly the first two are kept. -/
theorem C5_shorts_are_filtered_videos (youtubeAPIKey : String) (up : Upstream)
    (cache : Cache ShortsResponse) (nowGet nowSet : Int) (channelID : String)
    (item0 : ChannelItem) (items : List ChannelItem) (p0 : PlaylistItem)
    (ps : List PlaylistItem) (videos : List VideoItem)
    (hmiss : (cache.Get ("channel_" ++ channelID) nowGet).1 = none)
    (hkey : youtubeAPIKey ≠ "")
    (hch : up.channels (channelURL channelID youtubeAPIKey) = Except.ok ⟨item0 :: items, none⟩)
    (hpl : up.playlistItems (playlistURL item0.Uploads youtubeAPIKey)
      = Except.ok ⟨p0 :: ps, none⟩)
    (hvd : up.videos (videosURL (joinVideoIDs "" 0 ((p0 :: ps).map PlaylistItem.VideoID))
      youtubeAPIKey) = Except.ok ⟨videos, none⟩) :
    (getShortsHandler youtubeAPIKey up cache nowGet nowSet channelID).response =
      { status := 200
        body := Body.shorts
          { Shorts := (videos.filter (fun v => decide (parseDuration v.Duration ≤ 60))).map
              (fun v =>
                { ID := v.ID
                  Title := v.Title
                  ChannelTitle := v.ChannelTitle
                  PublishedAt := v.PublishedAt
                  Thumbnail := v.ThumbnailHighURL
                  Description := v.Description })
            ChannelID := channelID
            ChannelTitle := item0.Title } } ∧
    filterShorts []
        [{ ID := "a", Title := "ta", ChannelTitle := "ca", PublishedAt := "pa",
           ThumbnailHighURL := "ua", Description := "da", Duration := "PT30S" },
         { ID := "b", Title := "tb", ChannelTitle := "cb", PublishedAt := "pb",
           ThumbnailHighURL := "ub", Description := "db", Duration := "PT1M" },
         { ID := "c", Title := "tc", ChannelTitle := "cc", PublishedAt := "pc",
           ThumbnailHighURL := "uc", Description := "dc", Duration := "PT1M1S" },
         { ID := "d", Title := "td", ChannelTitle := "cd", PublishedAt := "pd",
           ThumbnailHighURL := "ud", Description := "dd", Duration := "PT1H2M3S" }]
      = [{ ID := "a", Title := "ta", ChannelTitle := "ca", PublishedAt := "pa",
           Thumbnail := "ua", Description := "da" },
         { ID := "b", Title := "tb", ChannelTitle := "cb", PublishedAt := "pb",
           Thumbnail := "ub", Description := "db" }] := by
  refine ⟨?_, by decide⟩
  rw [getShortsHandler_full youtubeAPIKey up cache nowGet nowSet channelID item0 items p0 ps
    videos hmiss hkey hch hpl hvd, filterShorts_eq]
  simp only [respondJSON, StatusOK, List.nil_append]
  rfl

theorem C5_shorts_are_filtered_videos_witness :
    (getShortsHandler "k"
        (sampleUpstream [sampleVideo "a" "PT30S", sampleVideo "b" "PT1M",
          sampleVideo "c" "PT1M1S", sampleVideo "d" "PT1H2M3S"])
        NewCache 0 1 "UC1").response =
      { status := 200
        body := Body.shorts
          { Shorts := [{ ID := "a", Title := "title", ChannelTitle := "Channel",
                         PublishedAt := "2024-01-01T00:00:00Z", Thumbnail := "thumb",
                         Description := "description" },
                       { ID := "b", Title := "title", ChannelTitle := "Channel",
                         PublishedAt := "2024-01-01T00:00:00Z", Thumbnail := "thumb",
                         Description := "description" }]
            ChannelID := "UC1"
            ChannelTitle := "Channel" } } :=
  (C5_shorts_are_filtered_videos "k"
    (sampleUpstream [sampleVideo "a" "PT30S", sampleVideo "b" "PT1M",
      sampleVideo "c" "PT1M1S", sampleVideo "d" "PT1H2M3S"])
    NewCache 0 1 "UC1" ⟨"UU1", "Channel"⟩ [] ⟨"a"⟩ [⟨"b"⟩]
    [sampleVideo "a" "PT30S", sampleVideo "b" "PT1M", sampleVideo "c" "PT1M1S",
      sampleVideo "d" "PT1H2M3S"]
    rfl (by decide) rfl rfl rfl).1.trans (by decide)

/-- C6 (as stated, refuted): with the channel lookup succeeding and the uploads
playlist returning zero items, the request is answered with status 200 and the
empty result after two outbound calls, and the cache holds nothing under
`channel_UC1` afterwards. -/
theorem C6_counterexample_empty_playlist_not_cached :
    (getShortsHandler "k" emptyPlaylistUpstream NewCache 0 1 "UC1").response
      = ⟨StatusOK, Body.shorts ⟨[], "UC1", "Channel"⟩⟩ ∧
    (getShortsHandler "k" emptyPlaylistUpstream NewCache 0 1 "UC1").calls.length = 2 ∧
    (getShortsHandler "k" emptyPlaylistUpstream NewCache 0 1 "UC1").cache.items "channel_UC1"
      = none ∧
    (getShortsHandler "k" emptyPlaylistUpstream NewCache 0 1 "UC1").cache.items "channel_UC1"
      ≠ some ⟨⟨[], "UC1", "Channel"⟩, 1⟩ := by
  decide

/-- C6 (amended): for every channel id whose channel lookup succeeds and whose
uploads playlist call returns zero items without error, the run is a success
answered with status 200 and the result (empty shorts sequence, the channel id,
the resolved channel title) after exactly the two outbound calls; the cache is
left as it was, so nothing is written under `"channel_" + channelId`. -/
theorem C6_empty_playlist_success_without_cache_write (youtubeAPIKey : String)
    (up : Upstream) (cache : Cache ShortsResponse) (nowGet nowSet : Int)
    (channelID : String) (item0 : ChannelItem) (items : List ChannelItem)
    (hmiss : (cache.Get ("channel_" ++ channelID) nowGet).1 = none)
    (hkey : youtubeAPIKey ≠ "")
    (hch : up.channels (channelURL channelID youtubeAPIKey) = Except.ok ⟨item0 :: items, none⟩)
    (hpl : up.playlistItems (playlistURL item0.Uploads youtubeAPIKey) = Except.ok ⟨[], none⟩) :
    (getShortsHandler youtubeAPIKey up cache nowGet nowSet channelID).response
      = ⟨StatusOK, Body.shorts ⟨[], channelID, item0.Title⟩⟩ ∧
    (getShortsHandler youtubeAPIKey up cache nowGet nowSet channelID).calls
      = [channelURL channelID youtubeAPIKey, playlistURL item0.Uploads youtubeAPIKey] ∧
    (getShortsHandler youtubeAPIKey up cache nowGet nowSet channelID).cache = cache := by
  rw [getShortsHandler_empty_playlist youtubeAPIKey up cache nowGet nowSet channelID item0
    items hmiss hkey hch hpl]
  exact ⟨rfl, rfl, rfl⟩

theorem C6_empty_playlist_success_without_cache_write_witness :
    (getShortsHandler "k" emptyPlaylistUpstream NewCache 0 1 "UC1").response
      = ⟨StatusOK, Body.shorts ⟨[], "UC1", (⟨"UU1", "Channel"⟩ : ChannelItem).Title⟩⟩ ∧
    (getShortsHandler "k" emptyPlaylistUpstream NewCache 0 1 "UC1").calls
      = [channelURL "UC1" "k", playlistURL (⟨"UU1", "Channel"⟩ : ChannelItem).Uploads "k"] ∧
    (getShortsHandler "k" emptyPlaylistUpstream NewCache 0 1 "UC1").cache = NewCache :=
  C6_empty_playlist_success_without_cache_write "k" emptyPlaylistUpstream NewCache 0 1 "UC1"
    ⟨"UU1", "Channel"⟩ [] rfl (by decide) rfl rfl

/-- C7: let a first shorts request for a channel id find no unexpired cache entry,
make all three outbound calls and return payload `P` with status 200, its cache
write happening at clock reading `tSet1`. Then, after any further requests that
are searches, shorts requests for other ids, or shorts requests for the same id
looked up within one hour of `tSet1`, a second request for the same id whose
cache lookup happens at a reading `tGet2` with `tSet1 ≤ tGet2` and
`tGet2 - tSet1` at most one hour makes zero outbound calls, returns status 200
with payload `P`, and leaves the cache unchanged. -/
theorem C7_second_request_served_from_cache (QueryEscape : String → String)
    (youtubeAPIKey : String) (up1 up2 : Upstream) (cache : Cache ShortsResponse)
    (tGet1 tSet1 tGet2 tSet2 : Int) (channelID : String) (P : ShortsResponse)
    (mid : List Request)
    (_hmiss : (cache.Get ("channel_" ++ channelID) tGet1).1 = none)
    (hcalls : (getShortsHandler youtubeAPIKey up1 cache tGet1 tSet1 channelID).calls.length = 3)
    (hresp : (getShortsHandler youtubeAPIKey up1 cache tGet1 tSet1 channelID).response
      = ⟨StatusOK, Body.shorts P⟩)
    (hmid : ∀ r ∈ mid, r.keepsEntry channelID tSet1)
    (_hle : tSet1 ≤ tGet2) (httl : tGet2 - tSet1 ≤ Hour) :
    (getShortsHandler youtubeAPIKey up2
        (serveCache QueryEscape youtubeAPIKey
          (getShortsHandler youtubeAPIKey up1 cache tGet1 tSet1 channelID).cache mid)
        tGet2 tSet2 channelID).calls = [] ∧
    (getShortsHandler youtubeAPIKey up2
        (serveCache QueryEscape youtubeAPIKey
          (getShortsHandler youtubeAPIKey up1 cache tGet1 tSet1 channelID).cache mid)
        tGet2 tSet2 channelID).response = ⟨StatusOK, Body.shorts P⟩ ∧
    (getShortsHandler youtubeAPIKey up2
        (serveCache QueryEscape youtubeAPIKey
          (getShortsHandler youtubeAPIKey up1 cache tGet1 tSet1 channelID).cache mid)
        tGet2 tSet2 channelID).cache =
      serveCache QueryEscape youtubeAPIKey
        (getShortsHandler youtubeAPIKey up1 cache tGet1 tSet1 channelID).cache mid := by
  have hfirst : (getShortsHandler youtubeAPIKey up1 cache tGet1 tSet1 channelID).cache.items
      ("channel_" ++ channelID) = some ⟨P, tSet1⟩ := by
    rcases getShortsHandler_cases youtubeAPIKey up1 cache tGet1 tSet1 channelID with
      h | ⟨r, hr, hc⟩
    · exact absurd ⟨hcalls, by rw [hresp]⟩ h.2
    · rw [hresp] at hr
      have hP : P = r := by simpa using hr
      rw [hc, hP]
      exact Cache.items_Set_same _ _ _ _
  have hlater := serveCache_keeps_entry QueryEscape youtubeAPIKey channelID P tSet1 mid _
    hmid hfirst
  have hget := Cache.Get_fresh _ ("channel_" ++ channelID) P tSet1 tGet2 hlater httl
  rw [getShortsHandler_hit youtubeAPIKey up2 _ tGet2 tSet2 channelID P (by rw [hget])]
  exact ⟨rfl, rfl, rfl⟩

theorem C7_second_request_served_from_cache_witness :
    (getShortsHandler "k" errorUpstream
        (serveCache (fun q => q) "k"
          (getShortsHandler "k" (sampleUpstream [sampleVideo "a" "PT30S"]) NewCache 0 5
            "UC1").cache
          [Request.search "q" errorUpstream, Request.shorts "UC2" (sampleUpstream []) 6 7,
            Request.shorts "UC1" errorUpstream 8 9])
        (5 + Hour) (6 + Hour) "UC1").calls = [] ∧
    (getShortsHandler "k" errorUpstream
        (serveCache (fun q => q) "k"
          (getShortsHandler "k" (sampleUpstream [sampleVideo "a" "PT30S"]) NewCache 0 5
            "UC1").cache
          [Request.search "q" errorUpstream, Request.shorts "UC2" (sampleUpstream []) 6 7,
            Request.shorts "UC1" errorUpstream 8 9])
        (5 + Hour) (6 + Hour) "UC1").response
      = ⟨StatusOK, Body.shorts ⟨[toVideoShort (sampleVideo "a" "PT30S")], "UC1", "Channel"⟩⟩ ∧
    (getShortsHandler "k" errorUpstream
        (serveCache (fun q => q) "k"
          (getShortsHandler "k" (sampleUpstream [sampleVideo "a" "PT30S"]) NewCache 0 5
            "UC1").cache
          [Request.search "q" errorUpstream, Request.shorts "UC2" (sampleUpstream []) 6 7,
            Request.shorts "UC1" errorUpstream 8 9])
        (5 + Hour) (6 + Hour) "UC1").cache =
      serveCache (fun q => q) "k"
        (getShortsHandler "k" (sampleUpstream [sampleVideo "a" "PT30S"]) NewCache 0 5
          "UC1").cache
        [Request.search "q" errorUpstream, Request.shorts "UC2" (sampleUpstream []) 6 7,
          Request.shorts "UC1" errorUpstream 8 9] :=
  C7_second_request_served_from_cache (fun q => q) "k"
    (sampleUpstream [sampleVideo "a" "PT30S"]) errorUpstream NewCache 0 5 (5 + Hour) (6 + Hour)
    "UC1" ⟨[toVideoShort (sampleVideo "a" "PT30S")], "UC1", "Channel"⟩
    [Request.search "q" errorUpstream, Request.shorts "UC2" (sampleUpstream []) 6 7,
      Request.shorts "UC1" errorUpstream 8 9]
    rfl (by decide) (by decide)
    (by
      intro r hr
      simp only [List.mem_cons, List.mem_singleton, List.not_mem_nil, or_false] at hr
      rcases hr with rfl | rfl | rfl
      · exact True.intro
      · exact Or.inl (by decide)
      · exact Or.inr (by norm_num [Hour]))
    (by norm_num [Hour]) (by norm_num [Hour])

/-- C8 (the code at the failing input): a search whose decoded upstream response
carries a structured error and no items is answered with status 404 `Channel not
found`, with empty details and reason; with a structured error and one item it
is answered with status 200. The channel lookup of the shorts handler, given the
same structured error, answers with status 500, the upstream message and the
first reason. -/
theorem C8_search_ignores_structured_error :
    (searchChannelsHandler (fun q => q) "k" errorUpstream NewCache "cats").response
      = ⟨StatusNotFound, Body.error ⟨"Channel not found", "", ""⟩⟩ ∧
    (searchChannelsHandler (fun q => q) "k" errorWithItemsUpstream NewCache "cats").response
      = ⟨StatusOK, Body.search ⟨[⟨"UC1", "Channel", "thumb", "about"⟩]⟩⟩ ∧
    (getShortsHandler "k" errorUpstream NewCache 0 1 "UC1").response
      = ⟨StatusInternalServerError,
          Body.error ⟨"YouTube API error", "Quota exceeded", "quotaExceeded"⟩⟩ := by
  decide

/-- C9: with the API key absent, starting from the empty cache, every request of
every sequence of shorts and search requests is answered (one outcome per
request) with status 500 and makes no outbound call. -/
theorem C9_no_key_every_request_fails (QueryEscape : String → String)
    (reqs : List Request) :
    (serve QueryEscape "" NewCache reqs).length = reqs.length ∧
    ∀ o ∈ serve QueryEscape "" NewCache reqs,
      o.response = ⟨StatusInternalServerError,
        Body.error ⟨"YouTube API key not configured", "", ""⟩⟩ ∧
      o.response.status = 500 ∧ o.calls = [] := by
  rw [serve_no_key QueryEscape reqs NewCache (fun _ => rfl)]
  refine ⟨List.length_replicate _ _, ?_⟩
  intro o ho
  rw [List.eq_of_mem_replicate ho]
  exact ⟨rfl, rfl, rfl⟩

theorem C9_no_key_every_request_fails_witness :
    (serve (fun q => q) "" NewCache
        [Request.shorts "UC1" (sampleUpstream []) 0 1, Request.search "cats" (sampleUpstream []),
          Request.shorts "UC1" (sampleUpstream []) 2 3]).length = 3 ∧
    ∀ o ∈ serve (fun q => q) "" NewCache
        [Request.shorts "UC1" (sampleUpstream []) 0 1, Request.search "cats" (sampleUpstream []),
          Request.shorts "UC1" (sampleUpstream []) 2 3],
      o.response = ⟨StatusInternalServerError,
        Body.error ⟨"YouTube API key not configured", "", ""⟩⟩ ∧
      o.response.status = 500 ∧ o.calls = [] :=
  C9_no_key_every_request_fails (fun q => q)
    [Request.shorts "UC1" (sampleUpstream []) 0 1, Request.search "cats" (sampleUpstream []),
      Request.shorts "UC1" (sampleUpstream []) 2 3]

end ZikTok
